import Mathlib

/-!
A shallow embedding, in Lean 4, of the crates-mcp server (an MCP server
exposing read-only crates.io / docs.rs metadata), together with theorems
checking its natural-language specification against the code.

The embedding follows the Rust sources:
  * `src/types.rs`         — the value records returned to callers;
  * `src/crates_client.rs` — the backing client facade (HTTP API + optional
    local git index mirror) and its startup recovery logic;
  * `src/docs_client.rs`   — the docs.rs documentation client;
  * `src/mcp_server.rs`    — the JSON-RPC dispatcher and tool handlers.

External collaborators (the network, serde_json parsing of upstream
payloads, the `crates-index` library) are modelled as explicit oracle
parameters: each facade operation takes the already-parsed outcome of the
upstream interaction it performs, and the `crates-index` calls
(`crate_`, `highest_version`) are modelled as function-valued state.
Machine integers (`u64`, `usize`) are modelled as `Nat`: none of the
operations embedded here can overflow on realistic metadata and the
source performs no wrapping arithmetic.
-/

set_option maxRecDepth 10000

deriving instance DecidableEq for Except

namespace CratesMcp

/-- Model of `serde_json::Value`. Numbers are modelled as `Int`
(the source only ever reads non-negative integers via `as_u64`). -/
inductive Json where
| null : Json
| bool (b : Bool) : Json
| num (n : Int) : Json
| str (s : String) : Json
| arr (elems : List Json) : Json
| obj (fields : List (String × Json)) : Json

/-- Model of `serde_json::Value::get` on an object (None on non-objects). -/
def Json.get : Json → String → Option Json
| .obj fields, key => (fields.find? (fun f => f.1 == key)).map (fun f => f.2)
| _, _ => none

/-- Model of `Value::as_str`. -/
def Json.asStr : Json → Option String
| .str s => some s
| _ => none

/-- Model of `Value::as_u64`: integer numbers that fit in u64 (here: are
non-negative). -/
def Json.asU64 : Json → Option Nat
| .num n => if 0 ≤ n then some n.toNat else none
| _ => none

/-- Rust `str::contains` (substring test). -/
def strContains (s pat : String) : Bool := decide (pat.data <:+: s.data)

/-- Rust `s.trim().is_empty()`: true iff every character of `s` is
whitespace (modelled directly on the character list so that it is
kernel-reducible). -/
def trimIsEmpty (s : String) : Bool := s.data.all Char.isWhitespace

/-- Helper for `splitChar`: structural split of a character list at a
separator, accumulating the current segment in reverse. -/
def splitCharAux (sep : Char) : List Char → List Char → List String
| [], acc => [String.mk acc.reverse]
| c :: rest, acc =>
  if c = sep then String.mk acc.reverse :: splitCharAux sep rest []
  else splitCharAux sep rest (c :: acc)

/-- Split a string at every occurrence of a separator character
(kernel-reducible model of Rust `str::lines` for `sep = newline` and of
`str::split` for `sep = slash`). -/
def splitChar (s : String) (sep : Char) : List String := splitCharAux sep s.data []

/-! ## Data model (`src/types.rs`) -/

/-- `types.rs::CrateSearchResult`. -/
structure CrateSearchResult where
  name : String
  max_version : String
  description : Option String
  downloads : Nat
deriving Repr, DecidableEq

/-- `types.rs::CrateInfo`. -/
structure CrateInfo where
  name : String
  version : String
  description : Option String
  documentation : Option String
  homepage : Option String
  repository : Option String
  license : Option String
  authors : List String
  keywords : List String
  categories : List String
  downloads : Nat
  created_at : String
  updated_at : String
deriving Repr, DecidableEq

/-- `types.rs::CrateVersion`. -/
structure CrateVersion where
  num : String
  created_at : String
  downloads : Nat
  features : Json
  yanked : Bool

/-- `types.rs::CrateDependency`. -/
structure CrateDependency where
  name : String
  version_req : String
  optional : Bool
  default_features : Bool
  features : List String
  target : Option String
  kind : String
deriving Repr, DecidableEq

/-- `types.rs::DocumentationItem`. -/
structure DocumentationItem where
  name : String
  kind : String
  path : String
  description : Option String
deriving Repr, DecidableEq

/-- `types.rs::CrateDocumentation`. -/
structure CrateDocumentation where
  name : String
  version : String
  description : Option String
  readme : Option String
  modules : List String
  items : List DocumentationItem
deriving Repr, DecidableEq

/-! ## Upstream payload shapes (`src/crates_client.rs`, serde structs) -/

/-- `crates_client.rs::CratesIoSearchCrate` (one entry of the parsed
search response). -/
structure CratesIoSearchCrate where
  name : String
  max_version : String
  description : Option String
  downloads : Nat
deriving Repr, DecidableEq

/-- `crates_client.rs::CratesIoVersion` (one entry of the parsed
per-crate version list). -/
structure CratesIoVersion where
  num : String
  created_at : String
  downloads : Nat
  features : Json
  yanked : Bool
  license : Option String

/-- `crates_client.rs::CratesIoCrateData`. -/
structure CratesIoCrateData where
  name : String
  description : Option String
  documentation : Option String
  homepage : Option String
  repository : Option String
  downloads : Nat
  created_at : String
  updated_at : String

/-- `crates_client.rs::CratesIoCrateResponse`. -/
structure CratesIoCrateResponse where
  crate_data : CratesIoCrateData
  versions : List CratesIoVersion

/-! ## Model of the `crates-index` library objects

The local mirror is the external `crates_index::GitIndex`. We model an
index crate as its version list, a dependency with the fields the source
reads, and the library's `highest_version` selection as an oracle
function (its semver-max behaviour is library code, not repository code;
no claim depends on which element it picks). -/

/-- `crates_index::DependencyKind`. -/
inductive DepKind where
| normal : DepKind
| dev : DepKind
| build : DepKind
deriving Repr, DecidableEq

/-- Rust `format!("{:?}", dep.kind()).to_lowercase()`. -/
def DepKind.lower : DepKind → String
| .normal => "normal"
| .dev => "dev"
| .build => "build"

/-- Model of `crates_index::Dependency` (the accessors the source uses). -/
structure IndexDep where
  crate_name : String
  requirement : String
  is_optional : Bool
  has_default_features : Bool
  features : List String
  target : Option String
  kind : DepKind
deriving Repr, DecidableEq

/-- Model of `crates_index::Version` (the accessors the source uses). -/
structure IndexVersion where
  version : String
  dependencies : List IndexDep
deriving Repr, DecidableEq

/-- Model of `crates_index::Crate`. -/
structure IndexCrate where
  versions : List IndexVersion
deriving Repr, DecidableEq

/-- Model of `crates_index::GitIndex`: the `crate_(name)` lookup. -/
structure GitIndexM where
  crateFn : String → Option IndexCrate

/-! ## Backing client facade (`src/crates_client.rs`) -/

/-- `search_crates`: the effective limit `limit.unwrap_or(10).min(100)`. -/
def effectiveLimit (limit : Option Nat) : Nat := min (limit.getD 10) 100

/-- `search_crates`: the over-fetch amount (`limit * 3` when filtering or
re-sorting will happen, else `limit`). -/
def searchApiLimit (lim : Nat) (sortBy : String) (minDownloads : Nat) : Nat :=
  if 0 < minDownloads ∨ sortBy = "downloads" then lim * 3 else lim

/-- `CratesClient::search_crates`. `upstream` is the oracle for the HTTP
request plus serde parse: it maps the `per_page` value put in the URL to
the parsed crate list (or a request/parse failure). `git_index` mirrors
the `&self` state (unused by this method, as in the source). -/
def search_crates (upstream : Nat → Except String (List CratesIoSearchCrate))
    (git_index : Option GitIndexM) (query : String) (limit : Option Nat)
    (sort_by : String) (min_downloads : Nat) :
    Except String (List CrateSearchResult) :=
  if trimIsEmpty query then .error "Search query cannot be empty"
  else
    let lim := effectiveLimit limit
    let api_limit := searchApiLimit lim sort_by min_downloads
    match upstream (min api_limit 100) with
    | .error e => .error e
    | .ok crates =>
      let results : List CrateSearchResult :=
        (crates.map (fun c =>
          { name := c.name, max_version := c.max_version,
            description := c.description, downloads := c.downloads })).filter
          (fun c => min_downloads ≤ c.downloads)
      let results :=
        if sort_by = "downloads" then
          results.mergeSort (fun a b => b.downloads ≤ a.downloads)
        else results
      .ok (results.take lim)

/-- The `match &self.git_index` block of `get_crate_info` that computes
the `(authors, keywords, categories, license)` tuple: every branch yields
empty vectors and the resolved version's license (the source's
"crates-index API may have changed, using empty defaults" note). -/
def indexMeta (hv : IndexCrate → IndexVersion) (git_index : Option GitIndexM)
    (name : String) (latest_version : CratesIoVersion) :
    List String × List String × List String × Option String :=
  match git_index with
  | some g =>
    match g.crateFn name with
    | some index_crate =>
      let latest_version_info :=
        (index_crate.versions.find? (fun v => v.version == latest_version.num))
          <|> some (hv index_crate)
      match latest_version_info with
      | some _ => ([], [], [], latest_version.license)
      | none => ([], [], [], latest_version.license)
    | none => ([], [], [], latest_version.license)
  | none => ([], [], [], latest_version.license)

/-- Body of `CratesClient::get_crate_info` after the HTTP fetch and
parse: version resolution over the parsed payload `r`, metadata tuple
from the git index, record construction. `hv` is the oracle for the
`crates-index` library's `highest_version` selection. -/
def crateInfoFromResponse (hv : IndexCrate → IndexVersion)
    (git_index : Option GitIndexM) (name : String) (r : CratesIoCrateResponse) :
    Except String CrateInfo :=
  match r.versions.find? (fun v => !v.yanked) <|> r.versions.head? with
  | none => .error "No versions found for crate"
  | some latest_version =>
    let (authors, keywords, categories, license) :=
      indexMeta hv git_index name latest_version
    .ok { name := r.crate_data.name
          version := latest_version.num
          description := r.crate_data.description
          documentation := r.crate_data.documentation
          homepage := r.crate_data.homepage
          repository := r.crate_data.repository
          license := license
          authors := authors
          keywords := keywords
          categories := categories
          downloads := r.crate_data.downloads
          created_at := r.crate_data.created_at
          updated_at := r.crate_data.updated_at }

/-- `CratesClient::get_crate_info`, entry point: input validation, then
the oracle outcome, then `crateInfoFromResponse` on the parsed payload. -/
def get_crate_info (hv : IndexCrate → IndexVersion) (git_index : Option GitIndexM)
    (name : String) (resp : Except String CratesIoCrateResponse) :
    Except String CrateInfo :=
  if trimIsEmpty name then .error "Crate name cannot be empty"
  else
    match resp with
    | .error e => .error e
    | .ok r => crateInfoFromResponse hv git_index name r

/-- `CratesClient::get_crate_versions`. `resp` is the oracle outcome of
the HTTP request plus serde parse for this `name`. -/
def get_crate_versions (git_index : Option GitIndexM) (name : String)
    (limit : Option Nat) (resp : Except String CratesIoCrateResponse) :
    Except String (List CrateVersion) :=
  if trimIsEmpty name then .error "Crate name cannot be empty"
  else
    match resp with
    | .error e => .error e
    | .ok r =>
      let versions : List CrateVersion :=
        r.versions.map (fun v =>
          { num := v.num, created_at := v.created_at, downloads := v.downloads,
            features := v.features, yanked := v.yanked })
      match limit with
      | some l => .ok (versions.take l)
      | none => .ok versions

/-- The `anyhow` context message attached when `self.git_index` is `None`
in `get_crate_dependencies` (the Rust string literal, with its
line-continuations resolved). -/
def gitIndexUnavailableMsg : String :=
  "Git index not available. Dependency viewing requires the local crates.io git index. This may be due to a corrupted git index. Try deleting ~/.cargo/registry/index/github.com-1ecc6299db9ec823/ (or the equivalent on Windows) and restart the server to rebuild the index."

/-- Conversion of one `crates_index::Dependency` to a `CrateDependency`
record (the `map` closure in `get_crate_dependencies`). -/
def depToRecord (dep : IndexDep) : CrateDependency :=
  { name := dep.crate_name
    version_req := dep.requirement
    optional := dep.is_optional
    default_features := dep.has_default_features
    features := dep.features
    target := dep.target
    kind := dep.kind.lower }

/-- `CratesClient::get_crate_dependencies`. Purely local: consults only
the mirror (`git_index`), never the network. `hv` is the library's
`highest_version` oracle. -/
def get_crate_dependencies (hv : IndexCrate → IndexVersion)
    (git_index : Option GitIndexM) (name : String) (version : Option String) :
    Except String (List CrateDependency) :=
  if trimIsEmpty name then .error "Crate name cannot be empty"
  else
    match git_index with
    | none => .error gitIndexUnavailableMsg
    | some g =>
      match g.crateFn name with
      | none => .error "Crate not found in index"
      | some index_crate =>
        match version with
        | some v =>
          match index_crate.versions.find? (fun ver => ver.version == v) with
          | none => .error "Version not found"
          | some version_info => .ok (version_info.dependencies.map depToRecord)
        | none => .ok ((hv index_crate).dependencies.map depToRecord)

/-! ## Startup recovery (`CratesClient::initialize_git_index_with_recovery`)

The environment is an oracle `env : String → Option String`
(`std::env::var_os`), the filesystem an oracle `pathExists : String → Bool`
(`Path::exists`), and the two possible calls to
`GitIndex::new_cargo_default` are the oracles `open1` (the first attempt)
and `open2` (the retry, consulted only where the source calls it).
The 100ms backoff sleep has no observable effect in this model. -/

/-- The `HOME` block of `get_cargo_registry_path`: `~/.cargo/registry`
when it exists. -/
def registryFromHome (env : String → Option String)
    (pathExists : String → Bool) : Option String :=
  match env "HOME" with
  | some home =>
    let path := home ++ "/.cargo/registry"
    if pathExists path then some path else none
  | none => none

/-- The `APPDATA` block of `get_cargo_registry_path` (Windows): checks
`%APPDATA%/.cargo` first, then `%APPDATA%/.cargo/registry`. -/
def registryFromAppdata (env : String → Option String)
    (pathExists : String → Bool) : Option String :=
  match env "APPDATA" with
  | some appdata =>
    if pathExists (appdata ++ "/.cargo") then
      let path := appdata ++ "/.cargo/registry"
      if pathExists path then some path else none
    else none
  | none => none

/-- The `CARGO_HOME` block of `get_cargo_registry_path`. -/
def registryFromCargoHome (env : String → Option String)
    (pathExists : String → Bool) : Option String :=
  match env "CARGO_HOME" with
  | some cargo_home =>
    let path := cargo_home ++ "/registry"
    if pathExists path then some path else none
  | none => none

/-- `CratesClient::get_cargo_registry_path`: the three early-return
blocks in source order (HOME, then APPDATA, then CARGO_HOME). -/
def get_cargo_registry_path (env : String → Option String)
    (pathExists : String → Bool) : Option String :=
  registryFromHome env pathExists <|> registryFromAppdata env pathExists
    <|> registryFromCargoHome env pathExists

/-- The `Err(e)` branch of `initialize_git_index_with_recovery`: retry
only when the error text suggests git-index corruption AND a cargo
registry root is found AND the index directory exists beneath it. -/
def recoverFromCorruption (open2 : Except String GitIndexM)
    (env : String → Option String) (pathExists : String → Bool) (e : String) :
    Option GitIndexM :=
  if strContains e "gix" ∨ strContains e "git" then
    match get_cargo_registry_path env pathExists with
    | some registry_path =>
      let index_path := registry_path ++ "/index/github.com-1ecc6299db9ec823"
      if pathExists index_path then
        match open2 with
        | .ok index => some index
        | .error _ => none
      else none
    | none => none
  else none

/-- `CratesClient::initialize_git_index_with_recovery`. `open1`/`open2`
are the outcomes of the first and (potential) retried
`GitIndex::new_cargo_default` call; an `Except.error` carries the error's
display text (`e.to_string()`). The 100ms backoff sleep before the retry
has no observable effect in this model. -/
def initialize_git_index_with_recovery
    (open1 open2 : Except String GitIndexM)
    (env : String → Option String) (pathExists : String → Bool) :
    Option GitIndexM :=
  match open1 with
  | .ok index => some index
  | .error e => recoverFromCorruption open2 env pathExists e

/-! ## Documentation client (`src/docs_client.rs`)

HTTP is the oracle `fetch : String → HttpOutcome` (per URL):
`ok finalPath body` means the request succeeded with a 2xx status, the
response's final URL (after redirects) had path `finalPath`, and reading
the body text gave `body`; `status c` is a non-2xx response with status
code `c`; `sendErr m` is a transport-level send failure. -/

/-- Outcome of one `http_client.get(url).send().await` (plus, on success,
the `text()` read). -/
inductive HttpOutcome where
| ok (finalPath : String) (body : Except String String) : HttpOutcome
| status (code : Nat) : HttpOutcome
| sendErr (msg : String) : HttpOutcome
deriving DecidableEq

/-- The body text of a 2xx response whose text read succeeded, else
`none` (the condition under which the readme loop accepts a URL). -/
def HttpOutcome.fetchedText : HttpOutcome → Option String
| .ok _ (.ok t) => some t
| _ => none

/-- First candidate README URL (`README.md`) at the source-browsing
path. -/
def readmeUrlUpper (name version : String) : String :=
  "https://docs.rs/" ++ name ++ "/" ++ version ++ "/src/" ++ name ++ "/README.md"

/-- Second candidate README URL (`readme.md`). -/
def readmeUrlLower (name version : String) : String :=
  "https://docs.rs/" ++ name ++ "/" ++ version ++ "/src/" ++ name ++ "/readme.md"

/-- Third candidate README URL (`Readme.md`). -/
def readmeUrlMixed (name version : String) : String :=
  "https://docs.rs/" ++ name ++ "/" ++ version ++ "/src/" ++ name ++ "/Readme.md"

/-- The three candidate README URLs tried, in order, by
`DocsClient::get_readme_content`. -/
def readmeUrls (name version : String) : List String :=
  [readmeUrlUpper name version, readmeUrlLower name version,
   readmeUrlMixed name version]

/-- The `for url in readme_urls` loop body of `get_readme_content`:
first URL whose fetch is a 2xx success with readable text wins; every
other outcome moves on to the next URL. -/
def readmeLoop (fetch : String → HttpOutcome) : List String → Except String String
| [] => .error "README not found"
| url :: rest =>
  match (fetch url).fetchedText with
  | some content => .ok content
  | none => readmeLoop fetch rest

/-- `DocsClient::get_readme_content`. -/
def get_readme_content (fetch : String → HttpOutcome) (name version : String) :
    Except String String :=
  readmeLoop fetch (readmeUrls name version)

/-- `DocsClient::extract_modules_from_html`. The scan over the page's
lines never mutates the accumulator (every branch of the source loop is
`continue` or falls through), then two placeholder module names are
appended. -/
def extract_modules_from_html (html : String) : List String :=
  let modules : List String := []
  let modules := (splitChar html (Char.ofNat 10)).foldl
    (fun acc line =>
      if (strContains line "href=" ∧ strContains line "/struct.")
          ∨ strContains line "/enum."
          ∨ strContains line "/trait."
          ∨ strContains line "/fn." then acc
      else if strContains line "mod " ∨ strContains line "module" then acc
      else acc)
    modules
  modules ++ ["lib", "prelude"]

/-- `DocsClient::extract_items_from_html`: ignores the HTML entirely and
pushes a single placeholder item built from the crate name. -/
def extract_items_from_html (_html : String) (crate_name : String) :
    List DocumentationItem :=
  [{ name := "lib", kind := "module", path := crate_name ++ "/lib",
     description := some "Main library module" }]

/-- The main documentation-page URL used both by
`get_crate_documentation` (version given) and
`get_documentation_structure`. -/
def docsStructureUrl (name version : String) : String :=
  "https://docs.rs/" ++ name ++ "/" ++ version ++ "/" ++ name ++ "/"

/-- `DocsClient::get_documentation_structure`. -/
def get_documentation_structure (fetch : String → HttpOutcome)
    (name version : String) : Except String (List String × List DocumentationItem) :=
  match fetch (docsStructureUrl name version) with
  | .sendErr _ => .error "Failed to get documentation page"
  | .status code => .error ("Failed to access documentation page: " ++ toString code)
  | .ok _ body =>
    match body with
    | .error _ => .error "Failed to read documentation page"
    | .ok html_content =>
      .ok (extract_modules_from_html html_content,
           extract_items_from_html html_content name)

/-- `DocsClient::extract_version_from_url`: walk the `/`-separated path
segments; the first segment equal to the crate name that has a successor
yields that successor. -/
def extract_version_from_parts (name : String) : List String → Except String String
| part :: rest =>
  match rest with
  | next :: _ => if part == name then .ok next else extract_version_from_parts name rest
  | [] => .error "Could not extract version from URL"
| [] => .error "Could not extract version from URL"

/-- `DocsClient::extract_version_from_url` on a URL path string. -/
def extract_version_from_url (path name : String) : Except String String :=
  extract_version_from_parts name (splitChar path (Char.ofNat 47))

/-- The `docs_url` of `get_crate_documentation`: the versioned structure
URL when a version is given, the crate's bare docs.rs URL otherwise. -/
def docsEntryUrl (name : String) (version : Option String) : String :=
  match version with
  | some v => docsStructureUrl name v
  | none => "https://docs.rs/" ++ name ++ "/"

/-- The resolved version of `get_crate_documentation`: the given version,
or the one parsed out of the final URL path after the "latest"
redirect. -/
def actualVersionRes (version : Option String) (finalPath name : String) :
    Except String String :=
  match version with
  | some v => .ok v
  | none => extract_version_from_url finalPath name

/-- Body of `DocsClient::get_crate_documentation` after the entry fetch
succeeded with final URL path `finalPath`: resolve the version,
best-effort readme (`.ok()` → `toOption`), then the structure scrape. -/
def docFromPage (fetch : String → HttpOutcome) (name : String)
    (version : Option String) (finalPath : String) :
    Except String CrateDocumentation :=
  match actualVersionRes version finalPath name with
  | .error e => .error e
  | .ok actual_version =>
    match get_documentation_structure fetch name actual_version with
    | .error e => .error e
    | .ok (modules, items) =>
      .ok { name := name, version := actual_version, description := none,
            readme := (get_readme_content fetch name actual_version).toOption,
            modules := modules, items := items }

/-- `DocsClient::get_crate_documentation`. The first fetch is only
inspected for its status and final URL (its body is never read by the
source). -/
def get_crate_documentation (fetch : String → HttpOutcome)
    (name : String) (version : Option String) :
    Except String CrateDocumentation :=
  if trimIsEmpty name then .error "Crate name cannot be empty"
  else
    match fetch (docsEntryUrl name version) with
    | .sendErr _ => .error "Failed to get documentation page"
    | .status code =>
      if code == 404 then
        .error ("Documentation for crate not found on docs.rs: " ++ name)
      else .error ("Failed to access docs.rs: " ++ toString code)
    | .ok finalPath _ => docFromPage fetch name version finalPath

/-! ## MCP server (`src/mcp_server.rs`)

The dispatcher's tool handlers end in awaited client calls followed by
`serde_json::to_string_pretty`; those composite backend interactions are
the oracle functions of `McpOracles` (each takes the already-validated
arguments and yields the pretty-printed payload text or the propagated
error text). `pkgName`/`pkgVersion` stand for the build-time
`env!("CARGO_PKG_NAME")`/`env!("CARGO_PKG_VERSION")` constants
(the crate manifest is not part of the sources). -/

structure McpOracles where
  searchTool : String → Option Nat → Except String String
  infoTool : String → Except String String
  versionsTool : String → Option Nat → Except String String
  depsTool : String → Option String → Except String String
  docsTool : String → Option String → Except String String
  pkgName : String
  pkgVersion : String

/-- `CratesIoMcpServer::create_error_response` (a `None` id serializes
as JSON null). -/
def create_error_response (id : Option Json) (code : Int) (message : String) : Json :=
  .obj [("jsonrpc", .str "2.0"),
        ("id", id.getD .null),
        ("error", .obj [("code", .num code), ("message", .str message)])]

/-- `CratesIoMcpServer::create_success_response`. -/
def create_success_response (id : Option Json) (result : Json) : Json :=
  .obj [("jsonrpc", .str "2.0"),
        ("id", id.getD .null),
        ("result", result)]

/-- The static `initialize` result payload. -/
def initializeResult (S : McpOracles) : Json :=
  .obj [("protocolVersion", .str "2024-11-05"),
        ("capabilities", .obj [("tools", .obj [])]),
        ("serverInfo", .obj [("name", .str S.pkgName),
                             ("version", .str S.pkgVersion)])]

/-- One tool descriptor of the static registry (name, description, input
schema). -/
def toolDescriptor (name description : String) (schema : Json) : Json :=
  .obj [("name", .str name), ("description", .str description),
        ("inputSchema", schema)]

/-- The static tool registry returned by
`CratesIoMcpServer::handle_list_tools`. -/
def toolRegistry : Json :=
  .arr
    [toolDescriptor "search_crates" "Search for Rust crates on crates.io"
      (.obj [("type", .str "object"),
             ("properties", .obj
               [("query", .obj [("type", .str "string"),
                 ("description", .str "Search query for crates")]),
                ("limit", .obj [("type", .str "integer"),
                 ("description", .str "Maximum number of results to return (default: 10, max: 100)"),
                 ("minimum", .num 1), ("maximum", .num 100)])]),
             ("required", .arr [.str "query"])]),
     toolDescriptor "get_crate_info" "Get detailed information about a specific Rust crate"
      (.obj [("type", .str "object"),
             ("properties", .obj
               [("name", .obj [("type", .str "string"),
                 ("description", .str "Name of the crate to get information about")])]),
             ("required", .arr [.str "name"])]),
     toolDescriptor "get_crate_versions" "Get version history for a Rust crate"
      (.obj [("type", .str "object"),
             ("properties", .obj
               [("name", .obj [("type", .str "string"),
                 ("description", .str "Name of the crate")]),
                ("limit", .obj [("type", .str "integer"),
                 ("description", .str "Maximum number of versions to return"),
                 ("minimum", .num 1), ("maximum", .num 50)])]),
             ("required", .arr [.str "name"])]),
     toolDescriptor "get_crate_dependencies" "Get dependencies for a specific version of a Rust crate"
      (.obj [("type", .str "object"),
             ("properties", .obj
               [("name", .obj [("type", .str "string"),
                 ("description", .str "Name of the crate")]),
                ("version", .obj [("type", .str "string"),
                 ("description", .str "Specific version (defaults to latest)")])]),
             ("required", .arr [.str "name"])]),
     toolDescriptor "get_crate_documentation" "Get documentation information for a Rust crate from docs.rs"
      (.obj [("type", .str "object"),
             ("properties", .obj
               [("name", .obj [("type", .str "string"),
                 ("description", .str "Name of the crate")]),
                ("version", .obj [("type", .str "string"),
                 ("description", .str "Specific version (defaults to latest)")])]),
             ("required", .arr [.str "name"])])]

/-- `CratesIoMcpServer::handle_list_tools`. -/
def handle_list_tools (id : Option Json) : Json :=
  .obj [("jsonrpc", .str "2.0"),
        ("id", id.getD .null),
        ("result", .obj [("tools", toolRegistry)])]

/-- `CratesIoMcpServer::call_search_crates` (argument extraction and
validation, then the backend call). -/
def call_search_crates (S : McpOracles) (arguments : Json) : Except String String :=
  match (arguments.get "query").bind Json.asStr with
  | none => .error "Missing 'query' parameter"
  | some query =>
    let limit := (arguments.get "limit").bind Json.asU64
    match limit with
    | some l =>
      if 100 < l then .error "Limit cannot exceed 100"
      else S.searchTool query (some l)
    | none => S.searchTool query none

/-- `CratesIoMcpServer::call_get_crate_info`. -/
def call_get_crate_info (S : McpOracles) (arguments : Json) : Except String String :=
  match (arguments.get "name").bind Json.asStr with
  | none => .error "Missing 'name' parameter"
  | some name => S.infoTool name

/-- `CratesIoMcpServer::call_get_crate_versions`. -/
def call_get_crate_versions (S : McpOracles) (arguments : Json) : Except String String :=
  match (arguments.get "name").bind Json.asStr with
  | none => .error "Missing 'name' parameter"
  | some name => S.versionsTool name ((arguments.get "limit").bind Json.asU64)

/-- `CratesIoMcpServer::call_get_crate_dependencies`. -/
def call_get_crate_dependencies (S : McpOracles) (arguments : Json) : Except String String :=
  match (arguments.get "name").bind Json.asStr with
  | none => .error "Missing 'name' parameter"
  | some name => S.depsTool name ((arguments.get "version").bind Json.asStr)

/-- `CratesIoMcpServer::call_get_crate_documentation`. -/
def call_get_crate_documentation (S : McpOracles) (arguments : Json) : Except String String :=
  match (arguments.get "name").bind Json.asStr with
  | none => .error "Missing 'name' parameter"
  | some name => S.docsTool name ((arguments.get "version").bind Json.asStr)

/-- The `match tool_name` dispatch inside `handle_call_tool`: `some`
for the five registered tools, `none` for an unknown tool. -/
def toolHandlerResult (S : McpOracles) (tool_name : String) (arguments : Json) :
    Option (Except String String) :=
  if tool_name = "search_crates" then some (call_search_crates S arguments)
  else if tool_name = "get_crate_info" then some (call_get_crate_info S arguments)
  else if tool_name = "get_crate_versions" then some (call_get_crate_versions S arguments)
  else if tool_name = "get_crate_dependencies" then some (call_get_crate_dependencies S arguments)
  else if tool_name = "get_crate_documentation" then some (call_get_crate_documentation S arguments)
  else none

/-- The success envelope built by `handle_call_tool` for an `Ok` handler
result: textual content inside a JSON-RPC `result`. -/
def toolOkEnvelope (id : Option Json) (content : String) : Json :=
  .obj [("jsonrpc", .str "2.0"),
        ("id", id.getD .null),
        ("result", .obj
          [("content", .arr [.obj [("type", .str "text"), ("text", .str content)]])])]

/-- The envelope built by `handle_call_tool` for an `Err` handler result:
still a JSON-RPC `result` (not an `error` object), with the error text as
content and the `isError` flag set. -/
def toolErrEnvelope (id : Option Json) (e : String) : Json :=
  .obj [("jsonrpc", .str "2.0"),
        ("id", id.getD .null),
        ("result", .obj
          [("content", .arr [.obj [("type", .str "text"),
                                   ("text", .str ("Error: " ++ e))]]),
           ("isError", .bool true)])]

/-- The final `match result` of `handle_call_tool`: `Ok` handler output
becomes plain text content in a `result` envelope, `Err` becomes
error-flagged text content in a `result` envelope. -/
def toolResultEnvelope (id : Option Json) : Except String String → Json
| .ok content => toolOkEnvelope id content
| .error e => toolErrEnvelope id e

/-- `CratesIoMcpServer::handle_call_tool`. -/
def handle_call_tool (S : McpOracles) (request : Json) (id : Option Json) : Json :=
  match request.get "params" with
  | none => create_error_response id (-32602) "Invalid params"
  | some params =>
    match (params.get "name").bind Json.asStr with
    | none => create_error_response id (-32602) "Missing tool name"
    | some tool_name =>
      let arguments := (params.get "arguments").getD (.obj [])
      match toolHandlerResult S tool_name arguments with
      | none => create_error_response id (-32601) "Unknown tool"
      | some result => toolResultEnvelope id result

/-- `CratesIoMcpServer::handle_request`. -/
def handle_request (S : McpOracles) (request : Json) : Json :=
  let method := ((request.get "method").bind Json.asStr).getD ""
  let id := request.get "id"
  if method = "initialize" then create_success_response id (initializeResult S)
  else if method = "tools/list" then handle_list_tools id
  else if method = "tools/call" then handle_call_tool S request id
  else create_error_response id (-32601) "Method not found"

/-- The response written for an unparsable input line in `run_stdio`. -/
def parseErrorResponse : Json := create_error_response none (-32700) "Parse error"

/-- The per-line loop of `CratesIoMcpServer::run_stdio`, as the list of
responses written for a list of input lines. `parse` is the oracle for
`serde_json::from_str::<Value>` (the external JSON grammar); `handle` is
the per-request handler (`handle_request S` in the running server).
Whitespace-only lines are skipped; a parse failure emits
`parseErrorResponse`; a parsed request emits its handler's response. -/
def processLines (parse : String → Option Json) (handle : Json → Json) :
    List String → List Json
| [] => []
| line :: rest =>
  if trimIsEmpty line then processLines parse handle rest
  else
    match parse line with
    | some request => handle request :: processLines parse handle rest
    | none => parseErrorResponse :: processLines parse handle rest

/-! ## Spec-side definitions (for refinement statements)

These two definitions follow the spec's words, not the source, and exist
only to be compared with the source-derived `get_crate_info`. -/

/-- The spec's version-resolution rule, as stated: "prefer the first
non-yanked version encountered in descending API order; if all are
yanked, fall back to the first listed version; fail if the version list
is empty". -/
def specResolvedVersion (versions : List CratesIoVersion) : Option CratesIoVersion :=
  match versions.filter (fun v => !v.yanked) with
  | v :: _ => some v
  | [] => versions.head?

/-- The spec's `getDetail` version outcome: the resolved version's
string, or failure when the list is empty. -/
def specGetDetailVersion (versions : List CratesIoVersion) : Except String String :=
  match specResolvedVersion versions with
  | some v => .ok v.num
  | none => .error "No versions found for crate"

/-- Projection of a `get_crate_info` outcome to the resolved version
string. -/
def versionOf (x : Except String CrateInfo) : Except String String :=
  x.map (fun i => i.version)

/-- The spec's readme rule, as stated: "the first file that returns
successfully wins; if none succeed, the readme field is left absent".
Stated with `findSome?` over the ordered candidate list. -/
def specReadmeFirstSuccess (fetch : String → HttpOutcome) (name version : String) :
    Except String String :=
  match (readmeUrls name version).findSome? (fun u => (fetch u).fetchedText) with
  | some content => .ok content
  | none => .error "README not found"

/-! ## Theorems -/

/-- Helper: `find?` returns the head of the filtered list. -/
theorem list_find?_eq_head?_filter {α : Type} (p : α → Bool) (l : List α) :
    l.find? p = (l.filter p).head? := by
  induction l with
  | nil => rfl
  | cons a t ih =>
    rw [List.find?_cons, List.filter_cons]
    cases h : p a with
    | true => simp
    | false => simpa using ih

/-- Helper: the git-index metadata block of `get_crate_info` is constant
in the index state: every branch yields empty lists and the resolved
version's license. -/
theorem indexMeta_eq (hv : IndexCrate → IndexVersion) (g : Option GitIndexM)
    (name : String) (v : CratesIoVersion) :
    indexMeta hv g name v = ([], [], [], v.license) := by
  rcases g with _ | g0
  · rfl
  · unfold indexMeta
    rcases hc : g0.crateFn name with _ | ic
    · simp [hc]
    · rcases hf : List.find? (fun x => x.version == v.num) ic.versions with _ | w
      · simp [hc, hf]
      · simp [hc, hf]

/-- C2: `get_crate_info` resolves the version exactly as the spec's rule
states: the first non-yanked version in upstream order; the first listed
version when every version is yanked; an error (no record) when the
upstream version list is empty. Stated as a refinement: the code's
version outcome equals the spec-side `specGetDetailVersion`. -/
theorem C2_getdetail_version_resolution
    (hv : IndexCrate → IndexVersion) (g : Option GitIndexM) (name : String)
    (r : CratesIoCrateResponse)
    (hname : trimIsEmpty name = false) :
    versionOf (get_crate_info hv g name (.ok r)) = specGetDetailVersion r.versions := by
  have hcond : ¬(trimIsEmpty name = true) := by simp [hname]
  have hentry : get_crate_info hv g name (.ok r) = crateInfoFromResponse hv g name r := by
    unfold get_crate_info
    rw [if_neg hcond]
  rw [hentry]
  unfold crateInfoFromResponse versionOf specGetDetailVersion specResolvedVersion
  rw [list_find?_eq_head?_filter]
  cases hfl : r.versions.filter (fun v => !v.yanked) with
  | cons v t =>
    simp [hfl, indexMeta_eq, Except.map]
  | nil =>
    simp only [hfl, List.head?_nil, Option.none_orElse]
    cases hh : r.versions.head? with
    | none => simp [hh, Except.map]
    | some w => simp [hh, indexMeta_eq, Except.map]

/-- Witness for C2 at a concrete input: a yanked 2.0.0 followed by a
non-yanked 1.0.0 resolves to 1.0.0. -/
theorem C2_getdetail_version_resolution_witness :
    trimIsEmpty "serde" = false
    ∧ versionOf (get_crate_info (fun _ => ⟨"", []⟩) none "serde"
        (.ok ⟨⟨"serde", none, none, none, none, 9, "t0", "t1"⟩,
          [⟨"2.0.0", "t2", 3, .null, true, none⟩,
           ⟨"1.0.0", "t3", 5, .null, false, some "MIT"⟩]⟩))
      = specGetDetailVersion
          [⟨"2.0.0", "t2", 3, .null, true, none⟩,
           ⟨"1.0.0", "t3", 5, .null, false, some "MIT"⟩] :=
  ⟨by decide,
   C2_getdetail_version_resolution (fun _ => ⟨"", []⟩) none "serde"
     ⟨⟨"serde", none, none, none, none, 9, "t0", "t1"⟩,
      [⟨"2.0.0", "t2", 3, .null, true, none⟩,
       ⟨"1.0.0", "t3", 5, .null, false, some "MIT"⟩]⟩
     (by decide)⟩

/-- C9: every successful `get_crate_info` result has empty `authors`,
`keywords` and `categories`, whatever the mirror state, and its `license`
is the resolved upstream version's license. -/
theorem C9_getdetail_empty_index_metadata
    (hv : IndexCrate → IndexVersion) (g : Option GitIndexM) (name : String)
    (r : CratesIoCrateResponse) (info : CrateInfo)
    (hok : get_crate_info hv g name (.ok r) = .ok info) :
    info.authors = [] ∧ info.keywords = [] ∧ info.categories = []
    ∧ (r.versions.find? (fun x => !x.yanked) <|> r.versions.head?).map
        (fun v => v.license) = some info.license := by
  by_cases hn : trimIsEmpty name
  · unfold get_crate_info at hok
    rw [if_pos hn] at hok
    exact absurd hok (by simp)
  · have hok2 : crateInfoFromResponse hv g name r = .ok info := by
      unfold get_crate_info at hok
      rw [if_neg hn] at hok
      exact hok
    unfold crateInfoFromResponse at hok2
    cases hres : r.versions.find? (fun x => !x.yanked) <|> r.versions.head? with
    | none =>
      rw [hres] at hok2
      exact absurd hok2 (by simp)
    | some v =>
      simp only [hres, indexMeta_eq] at hok2
      cases hok2
      simp

/-- Witness for C9 at a concrete input (mirror absent, one non-yanked
version carrying an Apache-2.0 license). -/
theorem C9_getdetail_empty_index_metadata_witness :
    get_crate_info (fun _ => ⟨"", []⟩) none "serde"
      (.ok ⟨⟨"serde", none, none, none, none, 9, "t0", "t1"⟩,
        [⟨"1.0.0", "t3", 5, .null, false, some "Apache-2.0"⟩]⟩)
      = .ok ⟨"serde", "1.0.0", none, none, none, none, some "Apache-2.0",
             [], [], [], 9, "t0", "t1"⟩
    ∧ ((⟨"serde", "1.0.0", none, none, none, none, some "Apache-2.0",
         [], [], [], 9, "t0", "t1"⟩ : CrateInfo).authors = []
      ∧ (⟨"serde", "1.0.0", none, none, none, none, some "Apache-2.0",
          [], [], [], 9, "t0", "t1"⟩ : CrateInfo).keywords = []
      ∧ (⟨"serde", "1.0.0", none, none, none, none, some "Apache-2.0",
          [], [], [], 9, "t0", "t1"⟩ : CrateInfo).categories = []
      ∧ ([(⟨"1.0.0", "t3", 5, .null, false, some "Apache-2.0"⟩ : CratesIoVersion)].find?
            (fun x => !x.yanked)
          <|> [(⟨"1.0.0", "t3", 5, .null, false, some "Apache-2.0"⟩ : CratesIoVersion)].head?).map
            (fun v => v.license)
        = some (⟨"serde", "1.0.0", none, none, none, none, some "Apache-2.0",
                 [], [], [], 9, "t0", "t1"⟩ : CrateInfo).license) :=
  ⟨by rfl,
   C9_getdetail_empty_index_metadata (fun _ => ⟨"", []⟩) none "serde"
     ⟨⟨"serde", none, none, none, none, 9, "t0", "t1"⟩,
      [⟨"1.0.0", "t3", 5, .null, false, some "Apache-2.0"⟩]⟩
     ⟨"serde", "1.0.0", none, none, none, none, some "Apache-2.0",
      [], [], [], 9, "t0", "t1"⟩ (by rfl)⟩

/-- C3: with the mirror unavailable (`git_index = None`), every
`get_crate_dependencies` call fails with the fixed Unavailable message,
which contains the on-disk index path and the delete-and-rebuild
instruction; and `search_crates`, `get_crate_info` and
`get_crate_versions` are unaffected by the mirror state (same outcome
with and without an index, for every index). -/
theorem C3_deps_unavailable_http_paths_unaffected
    (hv : IndexCrate → IndexVersion) (g : GitIndexM) (name : String)
    (version : Option String)
    (upstream : Nat → Except String (List CratesIoSearchCrate))
    (query : String) (limit : Option Nat) (sort_by : String)
    (min_downloads : Nat) (resp : Except String CratesIoCrateResponse)
    (limitV : Option Nat)
    (hname : trimIsEmpty name = false) :
    get_crate_dependencies hv none name version = .error gitIndexUnavailableMsg
    ∧ strContains gitIndexUnavailableMsg
        "~/.cargo/registry/index/github.com-1ecc6299db9ec823/" = true
    ∧ strContains gitIndexUnavailableMsg "Try deleting" = true
    ∧ strContains gitIndexUnavailableMsg "restart the server to rebuild the index" = true
    ∧ search_crates upstream (some g) query limit sort_by min_downloads
        = search_crates upstream none query limit sort_by min_downloads
    ∧ get_crate_info hv (some g) name resp = get_crate_info hv none name resp
    ∧ get_crate_versions (some g) name limitV resp
        = get_crate_versions none name limitV resp := by
  refine ⟨?_, by decide, by decide, by decide, rfl, ?_, rfl⟩
  · unfold get_crate_dependencies
    rw [if_neg (by simp [hname])]
  · unfold get_crate_info
    by_cases hn : trimIsEmpty name
    · rw [if_pos hn, if_pos hn]
    · rw [if_neg hn, if_neg hn]
      cases resp with
      | error e => rfl
      | ok r =>
        show crateInfoFromResponse hv (some g) name r
           = crateInfoFromResponse hv none name r
        unfold crateInfoFromResponse
        cases hres : r.versions.find? (fun v => !v.yanked) <|> r.versions.head? with
        | none => rfl
        | some v => simp [indexMeta_eq]

/-- Witness for C3 at a concrete input (an index holding no crates, a
failing network). -/
theorem C3_deps_unavailable_http_paths_unaffected_witness :
    trimIsEmpty "serde" = false
    ∧ (get_crate_dependencies (fun _ => ⟨"", []⟩) none "serde" none
        = .error gitIndexUnavailableMsg
      ∧ strContains gitIndexUnavailableMsg
          "~/.cargo/registry/index/github.com-1ecc6299db9ec823/" = true
      ∧ strContains gitIndexUnavailableMsg "Try deleting" = true
      ∧ strContains gitIndexUnavailableMsg "restart the server to rebuild the index" = true
      ∧ search_crates (fun _ => .error "network down") (some ⟨fun _ => none⟩)
          "q" none "relevance" 0
          = search_crates (fun _ => .error "network down") none "q" none "relevance" 0
      ∧ get_crate_info (fun _ => ⟨"", []⟩) (some ⟨fun _ => none⟩) "serde"
          (.error "network down")
          = get_crate_info (fun _ => ⟨"", []⟩) none "serde" (.error "network down")
      ∧ get_crate_versions (some ⟨fun _ => none⟩) "serde" none (.error "network down")
          = get_crate_versions none "serde" none (.error "network down")) :=
  ⟨by decide,
   C3_deps_unavailable_http_paths_unaffected (fun _ => ⟨"", []⟩) ⟨fun _ => none⟩
     "serde" none (fun _ => .error "network down") "q" none "relevance" 0
     (.error "network down") none (by decide)⟩

/-- C7: with the mirror available and the package present in it, an
explicit version with no exact match in the mirror's version list fails
with "Version not found", while omitting the version uses the library's
highest-version selection and succeeds (no failure from version
absence). The absence hypothesis is the code's own test: `find?` on the
version list returns `none`. -/
theorem C7_deps_explicit_version_notfound_omitted_succeeds
    (hv : IndexCrate → IndexVersion) (g : GitIndexM) (name : String)
    (c : IndexCrate) (v : String)
    (hname : trimIsEmpty name = false)
    (hc : g.crateFn name = some c)
    (habsent : c.versions.find? (fun ver => ver.version == v) = none) :
    get_crate_dependencies hv (some g) name (some v) = .error "Version not found"
    ∧ get_crate_dependencies hv (some g) name none
        = .ok ((hv c).dependencies.map depToRecord) := by
  constructor
  · unfold get_crate_dependencies
    rw [if_neg (by simp [hname])]
    simp [hc, habsent]
  · unfold get_crate_dependencies
    rw [if_neg (by simp [hname])]
    simp [hc]

/-- Witness for C7 at a concrete input: a one-version crate, querying the
absent version 2.0.0 and then no version. -/
theorem C7_deps_explicit_version_notfound_omitted_succeeds_witness :
    trimIsEmpty "serde" = false
    ∧ GitIndexM.crateFn
        ⟨fun n => if n == "serde"
          then some ⟨[⟨"1.0.0", [⟨"dep1", "^1", false, true, [], none, .normal⟩]⟩]⟩
          else none⟩ "serde"
        = some ⟨[⟨"1.0.0", [⟨"dep1", "^1", false, true, [], none, .normal⟩]⟩]⟩
    ∧ ([(⟨"1.0.0", [⟨"dep1", "^1", false, true, [], none, .normal⟩]⟩ : IndexVersion)].find?
        (fun ver => ver.version == "2.0.0")) = none
    ∧ (get_crate_dependencies (fun c => c.versions.headD ⟨"", []⟩)
        (some ⟨fun n => if n == "serde"
          then some ⟨[⟨"1.0.0", [⟨"dep1", "^1", false, true, [], none, .normal⟩]⟩]⟩
          else none⟩) "serde" (some "2.0.0")
        = .error "Version not found"
      ∧ get_crate_dependencies (fun c => c.versions.headD ⟨"", []⟩)
          (some ⟨fun n => if n == "serde"
            then some ⟨[⟨"1.0.0", [⟨"dep1", "^1", false, true, [], none, .normal⟩]⟩]⟩
            else none⟩) "serde" none
          = .ok (((fun (c : IndexCrate) => c.versions.headD ⟨"", []⟩)
              (⟨[⟨"1.0.0", [⟨"dep1", "^1", false, true, [], none, .normal⟩]⟩]⟩ :
                IndexCrate)).dependencies.map depToRecord)) :=
  ⟨by decide, by decide, by decide,
   C7_deps_explicit_version_notfound_omitted_succeeds
     (fun c => c.versions.headD ⟨"", []⟩)
     ⟨fun n => if n == "serde"
       then some ⟨[⟨"1.0.0", [⟨"dep1", "^1", false, true, [], none, .normal⟩]⟩]⟩
       else none⟩
     "serde" ⟨[⟨"1.0.0", [⟨"dep1", "^1", false, true, [], none, .normal⟩]⟩]⟩
     "2.0.0" (by decide) (by decide) (by decide)⟩

/-- Helper: the readme loop is "first success in order" (`findSome?`). -/
theorem readmeLoop_eq_findSome (fetch : String → HttpOutcome) (urls : List String) :
    readmeLoop fetch urls
      = match urls.findSome? (fun u => (fetch u).fetchedText) with
        | some content => .ok content
        | none => .error "README not found" := by
  induction urls with
  | nil => rfl
  | cons u rest ih =>
    rw [List.findSome?_cons]
    unfold readmeLoop
    cases h : (fetch u).fetchedText with
    | some c => simp [h]
    | none => simp [h, ih]

/-- Helper: the module scan never changes its accumulator, so extraction
is the constant `["lib", "prelude"]`. -/
theorem extract_modules_from_html_const (html : String) :
    extract_modules_from_html html = ["lib", "prelude"] := by
  have hfold : ∀ (l : List String) (acc : List String),
      l.foldl
        (fun acc line =>
          if (strContains line "href=" ∧ strContains line "/struct.")
              ∨ strContains line "/enum."
              ∨ strContains line "/trait."
              ∨ strContains line "/fn." then acc
          else if strContains line "mod " ∨ strContains line "module" then acc
          else acc)
        acc = acc := by
    intro l
    induction l with
    | nil => intro acc; rfl
    | cons a t ih =>
      intro acc
      rw [List.foldl_cons]
      rw [ite_self, ite_self]
      exact ih acc
  simp only [extract_modules_from_html]
  rw [hfold]
  rfl

/-- Helper: every successful structure scrape yields the fixed
module/item lists. -/
theorem docs_structure_ok_const (fetch : String → HttpOutcome) (n v : String)
    (mi : List String × List DocumentationItem)
    (h : get_documentation_structure fetch n v = .ok mi) :
    mi = (["lib", "prelude"],
          [⟨"lib", "module", n ++ "/lib", some "Main library module"⟩]) := by
  unfold get_documentation_structure at h
  cases hf : fetch (docsStructureUrl n v) with
  | sendErr s =>
    rw [hf] at h
    exact absurd h (by simp)
  | status c =>
    rw [hf] at h
    exact absurd h (by simp)
  | ok fp body =>
    rw [hf] at h
    cases body with
    | error e => exact absurd h (by simp)
    | ok html =>
      have h2 : Except.ok (extract_modules_from_html html,
          extract_items_from_html html n) = Except.ok mi := h
      injection h2 with h3
      rw [← h3, extract_modules_from_html_const]
      rfl

/-- C8: readme retrieval tries the fixed ordered candidate URLs
(`README.md`, `readme.md`, `Readme.md`) and the first successful fetch
wins (stated as equality with the `findSome?`-based spec rule); when all
three fail, the readme outcome is the "README not found" error, and a
`get_crate_documentation` call whose structure fetch succeeds still
succeeds with `readme = none`. -/
theorem C8_readme_first_success_best_effort
    (fetch : String → HttpOutcome) (name vstr fp html : String)
    (hname : trimIsEmpty name = false)
    (h1 : (fetch (readmeUrlUpper name vstr)).fetchedText = none)
    (h2 : (fetch (readmeUrlLower name vstr)).fetchedText = none)
    (h3 : (fetch (readmeUrlMixed name vstr)).fetchedText = none)
    (hstruct : fetch (docsStructureUrl name vstr) = .ok fp (.ok html)) :
    get_readme_content fetch name vstr = specReadmeFirstSuccess fetch name vstr
    ∧ get_readme_content fetch name vstr = .error "README not found"
    ∧ get_crate_documentation fetch name (some vstr)
        = .ok { name := name, version := vstr, description := none, readme := none,
                modules := ["lib", "prelude"],
                items := [⟨"lib", "module", name ++ "/lib",
                           some "Main library module"⟩] } := by
  have hchar : get_readme_content fetch name vstr
      = specReadmeFirstSuccess fetch name vstr := by
    unfold get_readme_content specReadmeFirstSuccess
    exact readmeLoop_eq_findSome fetch (readmeUrls name vstr)
  have hrm : get_readme_content fetch name vstr = .error "README not found" := by
    rw [hchar]
    unfold specReadmeFirstSuccess readmeUrls
    simp [List.findSome?_cons, h1, h2, h3]
  have hgs : get_documentation_structure fetch name vstr
      = .ok (extract_modules_from_html html, extract_items_from_html html name) := by
    unfold get_documentation_structure
    rw [hstruct]
  refine ⟨hchar, hrm, ?_⟩
  unfold get_crate_documentation
  rw [if_neg (by simp [hname])]
  have hentry : fetch (docsEntryUrl name (some vstr)) = .ok fp (.ok html) := hstruct
  rw [hentry]
  show docFromPage fetch name (some vstr) fp = _
  unfold docFromPage
  have hav : actualVersionRes (some vstr) fp name = .ok vstr := rfl
  simp only [hav, hgs, hrm, Except.toOption]
  rw [extract_modules_from_html_const]
  rfl

/-- Witness for C8 at a concrete input: only the structure URL answers
successfully; all readme candidates get a 404. -/
theorem C8_readme_first_success_best_effort_witness :
    trimIsEmpty "x" = false
    ∧ (HttpOutcome.fetchedText
        ((fun u => if u == "https://docs.rs/x/1.0.0/x/"
          then HttpOutcome.ok "/x/1.0.0/x/" (.ok "<html>") else .status 404)
          (readmeUrlUpper "x" "1.0.0")) = none)
    ∧ (HttpOutcome.fetchedText
        ((fun u => if u == "https://docs.rs/x/1.0.0/x/"
          then HttpOutcome.ok "/x/1.0.0/x/" (.ok "<html>") else .status 404)
          (readmeUrlLower "x" "1.0.0")) = none)
    ∧ (HttpOutcome.fetchedText
        ((fun u => if u == "https://docs.rs/x/1.0.0/x/"
          then HttpOutcome.ok "/x/1.0.0/x/" (.ok "<html>") else .status 404)
          (readmeUrlMixed "x" "1.0.0")) = none)
    ∧ ((fun u => if u == "https://docs.rs/x/1.0.0/x/"
          then HttpOutcome.ok "/x/1.0.0/x/" (.ok "<html>") else .status 404)
          (docsStructureUrl "x" "1.0.0")
        = HttpOutcome.ok "/x/1.0.0/x/" (.ok "<html>"))
    ∧ (get_readme_content
        (fun u => if u == "https://docs.rs/x/1.0.0/x/"
          then HttpOutcome.ok "/x/1.0.0/x/" (.ok "<html>") else .status 404)
        "x" "1.0.0"
        = specReadmeFirstSuccess
            (fun u => if u == "https://docs.rs/x/1.0.0/x/"
              then HttpOutcome.ok "/x/1.0.0/x/" (.ok "<html>") else .status 404)
            "x" "1.0.0"
      ∧ get_readme_content
          (fun u => if u == "https://docs.rs/x/1.0.0/x/"
            then HttpOutcome.ok "/x/1.0.0/x/" (.ok "<html>") else .status 404)
          "x" "1.0.0"
          = .error "README not found"
      ∧ get_crate_documentation
          (fun u => if u == "https://docs.rs/x/1.0.0/x/"
            then HttpOutcome.ok "/x/1.0.0/x/" (.ok "<html>") else .status 404)
          "x" (some "1.0.0")
          = .ok { name := "x", version := "1.0.0", description := none,
                  readme := none, modules := ["lib", "prelude"],
                  items := [⟨"lib", "module", "x" ++ "/lib",
                             some "Main library module"⟩] }) :=
  ⟨by decide, by decide, by decide, by decide, by decide,
   C8_readme_first_success_best_effort
     (fun u => if u == "https://docs.rs/x/1.0.0/x/"
       then HttpOutcome.ok "/x/1.0.0/x/" (.ok "<html>") else .status 404)
     "x" "1.0.0" "/x/1.0.0/x/" "<html>"
     (by decide) (by decide) (by decide) (by decide) (by decide)⟩

/-- C10: documentation-structure extraction is constant in the fetched
page: any two HTML inputs give the same module list (exactly
`["lib", "prelude"]`) and the same single placeholder item (a function of
the crate name only); both extractors are total; hence every successful
`get_crate_documentation` result carries exactly this fixed structure. -/
theorem C10_extraction_constant
    (fetch : String → HttpOutcome) (hA hB : String) (n name : String)
    (version : Option String) (d : CrateDocumentation)
    (hok : get_crate_documentation fetch name version = .ok d) :
    extract_modules_from_html hA = extract_modules_from_html hB
    ∧ extract_modules_from_html hA = ["lib", "prelude"]
    ∧ extract_items_from_html hA n = extract_items_from_html hB n
    ∧ extract_items_from_html hA n
        = [⟨"lib", "module", n ++ "/lib", some "Main library module"⟩]
    ∧ d.modules = ["lib", "prelude"]
    ∧ d.items = [⟨"lib", "module", name ++ "/lib", some "Main library module"⟩] := by
  refine ⟨?_, extract_modules_from_html_const hA, rfl, rfl, ?_⟩
  · rw [extract_modules_from_html_const hA, extract_modules_from_html_const hB]
  · by_cases hn : trimIsEmpty name
    · unfold get_crate_documentation at hok
      rw [if_pos hn] at hok
      exact absurd hok (by simp)
    · unfold get_crate_documentation at hok
      rw [if_neg hn] at hok
      cases hf : fetch (docsEntryUrl name version) with
      | sendErr m =>
        rw [hf] at hok
        exact absurd hok (by simp)
      | status c =>
        rw [hf] at hok
        have hok2 : (if c == 404 then
            (Except.error ("Documentation for crate not found on docs.rs: " ++ name) :
              Except String CrateDocumentation)
          else .error ("Failed to access docs.rs: " ++ toString c)) = .ok d := hok
        by_cases h4 : c == 404
        · rw [if_pos h4] at hok2
          exact absurd hok2 (by simp)
        · rw [if_neg h4] at hok2
          exact absurd hok2 (by simp)
      | ok fp b =>
        rw [hf] at hok
        have hok2 : docFromPage fetch name version fp = .ok d := hok
        unfold docFromPage at hok2
        cases hv : actualVersionRes version fp name with
        | error e =>
          rw [hv] at hok2
          exact absurd hok2 (by simp)
        | ok av =>
          simp only [hv] at hok2
          cases hs : get_documentation_structure fetch name av with
          | error e =>
            rw [hs] at hok2
            exact absurd hok2 (by simp)
          | ok mi =>
            have hmi := docs_structure_ok_const fetch name av mi hs
            obtain ⟨m, i⟩ := mi
            rw [hs] at hok2
            have hok3 : Except.ok
                ({ name := name, version := av, description := none,
                   readme := (get_readme_content fetch name av).toOption,
                   modules := m, items := i } : CrateDocumentation) = .ok d := hok2
            injection hok3 with hok4
            rw [← hok4]
            injection hmi with hm hi2
            exact ⟨hm, by simp at hi2 ⊢; rw [hi2]⟩

/-- Witness for C10 at a concrete input (everything fetches the same
page; the resulting record carries the fixed structure). -/
theorem C10_extraction_constant_witness :
    get_crate_documentation
      (fun _ => HttpOutcome.ok "/y/2.0.0/y/" (.ok "<p>different html</p>"))
      "y" (some "2.0.0")
      = .ok { name := "y", version := "2.0.0", description := none,
              readme := some "<p>different html</p>",
              modules := ["lib", "prelude"],
              items := [⟨"lib", "module", "y" ++ "/lib",
                         some "Main library module"⟩] }
    ∧ (extract_modules_from_html "<a>" = extract_modules_from_html "<b>"
      ∧ extract_modules_from_html "<a>" = ["lib", "prelude"]
      ∧ extract_items_from_html "<a>" "y" = extract_items_from_html "<b>" "y"
      ∧ extract_items_from_html "<a>" "y"
          = [⟨"lib", "module", "y" ++ "/lib", some "Main library module"⟩]
      ∧ ({ name := "y", version := "2.0.0", description := none,
           readme := some "<p>different html</p>",
           modules := ["lib", "prelude"],
           items := [⟨"lib", "module", "y" ++ "/lib",
                      some "Main library module"⟩] } :
           CrateDocumentation).modules = ["lib", "prelude"]
      ∧ ({ name := "y", version := "2.0.0", description := none,
           readme := some "<p>different html</p>",
           modules := ["lib", "prelude"],
           items := [⟨"lib", "module", "y" ++ "/lib",
                      some "Main library module"⟩] } :
           CrateDocumentation).items
          = [⟨"lib", "module", "y" ++ "/lib", some "Main library module"⟩]) :=
  ⟨by decide,
   C10_extraction_constant
     (fun _ => HttpOutcome.ok "/y/2.0.0/y/" (.ok "<p>different html</p>"))
     "<a>" "<b>" "y" "y" (some "2.0.0")
     { name := "y", version := "2.0.0", description := none,
       readme := some "<p>different html</p>",
       modules := ["lib", "prelude"],
       items := [⟨"lib", "module", "y" ++ "/lib", some "Main library module"⟩] }
     (by decide)⟩

/-- C1: for every `search` call with `minDownloads = D > 0` that returns a
result list, every returned summary has `downloads ≥ D` and the list's
length is at most the effective limit (`limit.unwrap_or(10).min(100)`,
i.e. default 10, capped at 100); moreover the facade's upstream request
over-fetches at `per_page = min(3 * limit, 100)` — the result depends on
the upstream oracle only through its answer at that page size, and
(by the definition unfolded in the proof) the upstream list is filtered
by `minDownloads` and then truncated to `limit`, in that order. -/
theorem C1_search_overfetch_filter_truncate
    (upstream up' : Nat → Except String (List CratesIoSearchCrate))
    (g : Option GitIndexM) (query : String) (limit : Option Nat)
    (sort_by : String) (min_downloads : Nat) (res : List CrateSearchResult)
    (hD : 0 < min_downloads)
    (hok : search_crates upstream g query limit sort_by min_downloads = .ok res)
    (hup : up' (min (effectiveLimit limit * 3) 100)
         = upstream (min (effectiveLimit limit * 3) 100)) :
    res.all (fun r => min_downloads ≤ r.downloads) = true
    ∧ res.length ≤ effectiveLimit limit
    ∧ search_crates up' g query limit sort_by min_downloads = .ok res := by
  have hapi : searchApiLimit (effectiveLimit limit) sort_by min_downloads
      = effectiveLimit limit * 3 := if_pos (Or.inl hD)
  have hok0 := hok
  simp only [search_crates] at hok
  by_cases hq : trimIsEmpty query
  · rw [if_pos hq] at hok
    exact absurd hok (by simp)
  · rw [if_neg hq] at hok
    rw [hapi] at hok
    have heq : search_crates up' g query limit sort_by min_downloads
        = search_crates upstream g query limit sort_by min_downloads := by
      simp only [search_crates]
      rw [if_neg hq, if_neg hq, hapi, hup]
    cases hupval : upstream (min (effectiveLimit limit * 3) 100) with
    | error e =>
      rw [hupval] at hok
      exact absurd hok (by simp)
    | ok crates =>
      rw [hupval] at hok
      have hres : res =
          ((if sort_by = "downloads" then
            ((crates.map (fun c =>
              ({ name := c.name, max_version := c.max_version,
                 description := c.description, downloads := c.downloads } :
                 CrateSearchResult))).filter
              (fun c => min_downloads ≤ c.downloads)).mergeSort
              (fun a b => b.downloads ≤ a.downloads)
           else
            (crates.map (fun c =>
              ({ name := c.name, max_version := c.max_version,
                 description := c.description, downloads := c.downloads } :
                 CrateSearchResult))).filter
              (fun c => min_downloads ≤ c.downloads)).take
            (effectiveLimit limit)) := by
        cases hok
        rfl
      refine ⟨?_, ?_, heq.trans hok0⟩
      · rw [List.all_eq_true]
        intro r hr
        rw [hres] at hr
        have hr2 := List.mem_of_mem_take hr
        have hr3 : r ∈ (crates.map (fun c =>
            ({ name := c.name, max_version := c.max_version,
               description := c.description, downloads := c.downloads } :
               CrateSearchResult))).filter (fun c => min_downloads ≤ c.downloads) := by
          by_cases hs : sort_by = "downloads"
          · rw [if_pos hs] at hr2
            exact List.mem_mergeSort.mp hr2
          · rw [if_neg hs] at hr2
            exact hr2
        have := (List.mem_filter.mp hr3).2
        simpa using this
      · rw [hres]
        simp [List.length_take]

/-- Witness for C1 at a concrete input: a two-crate upstream answer, a
floor of 10 downloads, default limit. -/
theorem C1_search_overfetch_filter_truncate_witness :
    0 < 10
    ∧ search_crates
        (fun _ => .ok [⟨"serde", "1.0.0", none, 50⟩, ⟨"tiny", "0.1.0", none, 5⟩])
        none "serde" none "relevance" 10
        = .ok [⟨"serde", "1.0.0", none, 50⟩]
    ∧ (fun _ => (Except.ok [⟨"serde", "1.0.0", none, 50⟩, ⟨"tiny", "0.1.0", none, 5⟩]
          : Except String (List CratesIoSearchCrate)))
        (min (effectiveLimit none * 3) 100)
      = (fun _ => (Except.ok [⟨"serde", "1.0.0", none, 50⟩, ⟨"tiny", "0.1.0", none, 5⟩]
          : Except String (List CratesIoSearchCrate)))
        (min (effectiveLimit none * 3) 100)
    ∧ (([⟨"serde", "1.0.0", none, 50⟩] : List CrateSearchResult).all
        (fun r => 10 ≤ r.downloads) = true
      ∧ ([⟨"serde", "1.0.0", none, 50⟩] : List CrateSearchResult).length
          ≤ effectiveLimit none
      ∧ search_crates
          (fun _ => .ok [⟨"serde", "1.0.0", none, 50⟩, ⟨"tiny", "0.1.0", none, 5⟩])
          none "serde" none "relevance" 10
          = .ok [⟨"serde", "1.0.0", none, 50⟩]) :=
  ⟨by decide, by decide, rfl,
   C1_search_overfetch_filter_truncate
     (fun _ => .ok [⟨"serde", "1.0.0", none, 50⟩, ⟨"tiny", "0.1.0", none, 5⟩])
     (fun _ => .ok [⟨"serde", "1.0.0", none, 50⟩, ⟨"tiny", "0.1.0", none, 5⟩])
     none "serde" none "relevance" 10 [⟨"serde", "1.0.0", none, 50⟩]
     (by decide) (by decide) rfl⟩

/-- C5 counterexample: a whitespace-only line is unparsable as JSON, yet
the dispatcher loop skips it before parsing and emits no response at all
— so "each unparsable line produces exactly one response carrying a
parse-error code" is false as stated: this one-line input (with a parse
oracle that, like serde_json, fails on whitespace) produces zero
responses instead of one. -/
theorem C5_blank_line_counterexample :
    processLines (fun _ => none) (fun r => r) ["  "] = []
    ∧ trimIsEmpty "  " = true
    ∧ (fun (_ : String) => (none : Option Json)) "  " = none := by
  exact ⟨rfl, rfl, rfl⟩

/-- C5 (amended): every line that is not whitespace-only produces exactly
one response — the parse-error response when the parse oracle fails, the
handler's response otherwise — in input order; whitespace-only lines are
skipped without a response, and no line (parsable or not) ever terminates
the loop. Stated as: the emitted responses are exactly the per-line
responses of the non-blank lines, in order. -/
theorem C5_per_line_responses_in_order
    (parse : String → Option Json) (handle : Json → Json) (lines : List String) :
    processLines parse handle lines
      = (lines.filter (fun l => !(trimIsEmpty l))).map
          (fun l =>
            match parse l with
            | some request => handle request
            | none => parseErrorResponse) := by
  induction lines with
  | nil => rfl
  | cons l rest ih =>
    unfold processLines
    by_cases hl : trimIsEmpty l
    · rw [if_pos hl]
      simp [List.filter_cons, hl, ih]
    · rw [if_neg hl]
      cases hp : parse l with
      | some r => simp [List.filter_cons, hl, hp, ih]
      | none => simp [List.filter_cons, hl, hp, ih]

/-- C4: for a `tools/call` naming a known tool, a handler failure is
returned as a successful JSON-RPC `result` envelope whose content is the
error text flagged `isError` — never a transport `error` object; in
particular `search_crates` without a `query` argument yields the
error-flagged content "Error: Missing 'query' parameter" (which names
`query`); whereas a request without `params`, an unknown tool, and an
unknown method all use the transport error envelope. -/
theorem C4_handler_errors_flagged_not_transport
    (S : McpOracles) (id idj : Json) (args : Json)
    (tname tname2 m : String) (e : String)
    (hmiss : (args.get "query").bind Json.asStr = none)
    (hfail : toolHandlerResult S tname args = some (.error e))
    (hnone : toolHandlerResult S tname2 args = none)
    (hm1 : ¬(m = "initialize")) (hm2 : ¬(m = "tools/list"))
    (hm3 : ¬(m = "tools/call")) :
    handle_call_tool S
        (Json.obj [("params", Json.obj
          [("name", Json.str "search_crates"), ("arguments", args)])]) (some id)
      = toolErrEnvelope (some id) "Missing 'query' parameter"
    ∧ strContains "Error: Missing 'query' parameter" "query" = true
    ∧ handle_call_tool S
        (Json.obj [("params", Json.obj
          [("name", Json.str tname), ("arguments", args)])]) (some id)
      = toolErrEnvelope (some id) e
    ∧ toolErrEnvelope (some id) e
      = Json.obj [("jsonrpc", .str "2.0"), ("id", id),
          ("result", Json.obj
            [("content", Json.arr [Json.obj
              [("type", .str "text"), ("text", .str ("Error: " ++ e))]]),
             ("isError", .bool true)])]
    ∧ handle_call_tool S
        (Json.obj [("params", Json.obj
          [("name", Json.str tname2), ("arguments", args)])]) (some id)
      = create_error_response (some id) (-32601) "Unknown tool"
    ∧ handle_call_tool S (Json.obj []) (some id)
      = create_error_response (some id) (-32602) "Invalid params"
    ∧ handle_request S (Json.obj [("method", Json.str m), ("id", idj)])
      = create_error_response (some idj) (-32601) "Method not found" := by
  have hcall : call_search_crates S args = .error "Missing 'query' parameter" := by
    unfold call_search_crates
    rw [hmiss]
  refine ⟨?_, by decide, ?_, rfl, ?_, rfl, ?_⟩
  · have h1 : handle_call_tool S
        (Json.obj [("params", Json.obj
          [("name", Json.str "search_crates"), ("arguments", args)])]) (some id)
        = toolResultEnvelope (some id) (call_search_crates S args) := rfl
    rw [h1, hcall]
    rfl
  · have h2 : handle_call_tool S
        (Json.obj [("params", Json.obj
          [("name", Json.str tname), ("arguments", args)])]) (some id)
        = (match toolHandlerResult S tname args with
           | none => create_error_response (some id) (-32601) "Unknown tool"
           | some result => toolResultEnvelope (some id) result) := rfl
    rw [h2, hfail]
    rfl
  · have h3 : handle_call_tool S
        (Json.obj [("params", Json.obj
          [("name", Json.str tname2), ("arguments", args)])]) (some id)
        = (match toolHandlerResult S tname2 args with
           | none => create_error_response (some id) (-32601) "Unknown tool"
           | some result => toolResultEnvelope (some id) result) := rfl
    rw [h3, hnone]
  · have h5 : handle_request S (Json.obj [("method", Json.str m), ("id", idj)])
        = (if m = "initialize" then
             create_success_response (some idj) (initializeResult S)
           else if m = "tools/list" then handle_list_tools (some idj)
           else if m = "tools/call" then
             handle_call_tool S
               (Json.obj [("method", Json.str m), ("id", idj)]) (some idj)
           else create_error_response (some idj) (-32601) "Method not found") := rfl
    rw [h5, if_neg hm1, if_neg hm2, if_neg hm3]

/-- Witness for C4 at a concrete input: empty arguments (so `query` and
`name` are both missing), the tool `get_crate_info` as the known failing
tool, `bogus_tool` as the unknown tool, and `shutdown` as the unknown
method. -/
theorem C4_handler_errors_flagged_not_transport_witness :
    ((Json.obj []).get "query").bind Json.asStr = none
    ∧ toolHandlerResult
        ⟨fun _ _ => .error "x", fun _ => .error "x", fun _ _ => .error "x",
         fun _ _ => .error "x", fun _ _ => .error "x", "crates-mcp", "0.1.0"⟩
        "get_crate_info" (Json.obj [])
        = some (.error "Missing 'name' parameter")
    ∧ toolHandlerResult
        ⟨fun _ _ => .error "x", fun _ => .error "x", fun _ _ => .error "x",
         fun _ _ => .error "x", fun _ _ => .error "x", "crates-mcp", "0.1.0"⟩
        "bogus_tool" (Json.obj []) = none
    ∧ (handle_call_tool
        ⟨fun _ _ => .error "x", fun _ => .error "x", fun _ _ => .error "x",
         fun _ _ => .error "x", fun _ _ => .error "x", "crates-mcp", "0.1.0"⟩
        (Json.obj [("params", Json.obj
          [("name", Json.str "search_crates"), ("arguments", Json.obj [])])])
        (some (Json.num 1))
        = toolErrEnvelope (some (Json.num 1)) "Missing 'query' parameter"
      ∧ strContains "Error: Missing 'query' parameter" "query" = true
      ∧ handle_call_tool
          ⟨fun _ _ => .error "x", fun _ => .error "x", fun _ _ => .error "x",
           fun _ _ => .error "x", fun _ _ => .error "x", "crates-mcp", "0.1.0"⟩
          (Json.obj [("params", Json.obj
            [("name", Json.str "get_crate_info"), ("arguments", Json.obj [])])])
          (some (Json.num 1))
          = toolErrEnvelope (some (Json.num 1)) "Missing 'name' parameter"
      ∧ toolErrEnvelope (some (Json.num 1)) "Missing 'name' parameter"
        = Json.obj [("jsonrpc", .str "2.0"), ("id", Json.num 1),
            ("result", Json.obj
              [("content", Json.arr [Json.obj
                [("type", .str "text"),
                 ("text", .str ("Error: " ++ "Missing 'name' parameter"))]]),
               ("isError", .bool true)])]
      ∧ handle_call_tool
          ⟨fun _ _ => .error "x", fun _ => .error "x", fun _ _ => .error "x",
           fun _ _ => .error "x", fun _ _ => .error "x", "crates-mcp", "0.1.0"⟩
          (Json.obj [("params", Json.obj
            [("name", Json.str "bogus_tool"), ("arguments", Json.obj [])])])
          (some (Json.num 1))
          = create_error_response (some (Json.num 1)) (-32601) "Unknown tool"
      ∧ handle_call_tool
          ⟨fun _ _ => .error "x", fun _ => .error "x", fun _ _ => .error "x",
           fun _ _ => .error "x", fun _ _ => .error "x", "crates-mcp", "0.1.0"⟩
          (Json.obj []) (some (Json.num 1))
          = create_error_response (some (Json.num 1)) (-32602) "Invalid params"
      ∧ handle_request
          ⟨fun _ _ => .error "x", fun _ => .error "x", fun _ _ => .error "x",
           fun _ _ => .error "x", fun _ _ => .error "x", "crates-mcp", "0.1.0"⟩
          (Json.obj [("method", Json.str "shutdown"), ("id", Json.num 2)])
          = create_error_response (some (Json.num 2)) (-32601) "Method not found") :=
  ⟨rfl, rfl, rfl,
   C4_handler_errors_flagged_not_transport
     ⟨fun _ _ => .error "x", fun _ => .error "x", fun _ _ => .error "x",
      fun _ _ => .error "x", fun _ _ => .error "x", "crates-mcp", "0.1.0"⟩
     (Json.num 1) (Json.num 2) (Json.obj [])
     "get_crate_info" "bogus_tool" "shutdown" "Missing 'name' parameter"
     rfl rfl rfl (by decide) (by decide) (by decide)⟩

/-- C6 counterexample: the first open fails with corruption-indicating
error text ("git corruption" contains "git") and a retry would succeed
(`open2` is `ok`), yet with no package-cache root locatable (every
environment variable unset, no path exists) the source performs NO retry
and leaves the mirror Unavailable — the claim's "waits a short fixed
backoff, and retries the open exactly once" after locating the root is
false as stated: the retry is conditional on actually finding a cache
root whose index directory exists. -/
theorem C6_no_retry_without_index_dir_counterexample :
    initialize_git_index_with_recovery (.error "git corruption")
      (.ok ⟨fun _ => none⟩) (fun _ => none) (fun _ => false) = none
    ∧ strContains "git corruption" "git" = true := by
  exact ⟨rfl, by decide⟩

/-- C6 (amended): at construction, a successful first open makes the
mirror available; a failure whose text does not contain "gix"/"git"
leaves it Unavailable with no retry; a corruption-text failure retries
the open exactly once — but only when a package-cache root is located
(tried in the priority order HOME, then APPDATA, then CARGO_HOME) and
the `index/github.com-1ecc6299db9ec823` directory exists beneath it —
and then the mirror state is exactly the retry's outcome; when the root
search fails, or the index directory is absent, no retry happens and the
mirror is Unavailable for the process lifetime. -/
theorem C6_startup_recovery_state_machine
    (open2 : Except String GitIndexM) (idx : GitIndexM) (e e2 : String)
    (env env2 env3 env4 : String → Option String)
    (pexists pexists2 pexists3 pexists4 : String → Bool)
    (home appdata cargo home4 : String)
    (hyps : strContains e "git" = true
      ∧ env "HOME" = some home
      ∧ pexists (home ++ "/.cargo/registry") = true
      ∧ pexists ((home ++ "/.cargo/registry")
          ++ "/index/github.com-1ecc6299db9ec823") = true
      ∧ strContains e2 "gix" = false
      ∧ strContains e2 "git" = false
      ∧ env2 "HOME" = none
      ∧ env2 "APPDATA" = some appdata
      ∧ pexists2 (appdata ++ "/.cargo") = true
      ∧ pexists2 (appdata ++ "/.cargo/registry") = true
      ∧ env3 "HOME" = none
      ∧ env3 "APPDATA" = none
      ∧ env3 "CARGO_HOME" = some cargo
      ∧ pexists3 (cargo ++ "/registry") = true
      ∧ env4 "HOME" = some home4
      ∧ pexists4 (home4 ++ "/.cargo/registry") = true
      ∧ pexists4 ((home4 ++ "/.cargo/registry")
          ++ "/index/github.com-1ecc6299db9ec823") = false) :
    initialize_git_index_with_recovery (.ok idx) open2 env pexists = some idx
    ∧ get_cargo_registry_path env pexists = some (home ++ "/.cargo/registry")
    ∧ initialize_git_index_with_recovery (.error e) open2 env pexists
        = (match open2 with | .ok i => some i | .error _ => none)
    ∧ initialize_git_index_with_recovery (.error e2) open2 env pexists = none
    ∧ get_cargo_registry_path env2 pexists2 = some (appdata ++ "/.cargo/registry")
    ∧ get_cargo_registry_path env3 pexists3 = some (cargo ++ "/registry")
    ∧ initialize_git_index_with_recovery (.error e) open2 env4 pexists4 = none := by
  obtain ⟨h1, h2, h3, h4, h5, h6, h7, h8, h9, h10,
    h11, h12, h13, h14, h15, h16, h17⟩ := hyps
  have hhome : registryFromHome env pexists = some (home ++ "/.cargo/registry") := by
    unfold registryFromHome
    rw [h2]
    simp [h3]
  have hroot : get_cargo_registry_path env pexists
      = some (home ++ "/.cargo/registry") := by
    unfold get_cargo_registry_path
    rw [hhome]
    rfl
  have hroot4 : get_cargo_registry_path env4 pexists4
      = some (home4 ++ "/.cargo/registry") := by
    unfold get_cargo_registry_path registryFromHome
    rw [h15]
    simp [h16]
  refine ⟨rfl, hroot, ?_, ?_, ?_, ?_, ?_⟩
  · show recoverFromCorruption open2 env pexists e = _
    unfold recoverFromCorruption
    rw [if_pos (Or.inr h1)]
    simp only [hroot]
    rw [if_pos h4]
  · show recoverFromCorruption open2 env pexists e2 = none
    unfold recoverFromCorruption
    rw [if_neg (by simp [h5, h6])]
  · unfold get_cargo_registry_path registryFromHome registryFromAppdata
    rw [h7, h8]
    simp [h9, h10]
  · unfold get_cargo_registry_path registryFromHome registryFromAppdata
      registryFromCargoHome
    rw [h11, h12, h13]
    simp [h14]
  · show recoverFromCorruption open2 env4 pexists4 e = none
    unfold recoverFromCorruption
    rw [if_pos (Or.inr h1)]
    simp only [hroot4]
    rw [if_neg (by simp [h17])]

/-- Witness for C6 (amended) at concrete environments: HOME-based root
with the index directory present for the retry scenario; APPDATA-only
and CARGO_HOME-only environments for the fallback order; a HOME root
whose index directory is missing for the no-retry scenario. -/
theorem C6_startup_recovery_state_machine_witness :
    (strContains "bad git index" "git" = true
      ∧ (fun v => if v == "HOME" then some "/home/u" else none) "HOME" = some "/home/u"
      ∧ (fun _ => true) ("/home/u" ++ "/.cargo/registry") = true
      ∧ (fun _ => true) (("/home/u" ++ "/.cargo/registry")
          ++ "/index/github.com-1ecc6299db9ec823") = true
      ∧ strContains "connection timeout" "gix" = false
      ∧ strContains "connection timeout" "git" = false
      ∧ (fun v => if v == "APPDATA" then some "C:/AD" else none) "HOME" = none
      ∧ (fun v => if v == "APPDATA" then some "C:/AD" else none) "APPDATA" = some "C:/AD"
      ∧ (fun _ => true) ("C:/AD" ++ "/.cargo") = true
      ∧ (fun _ => true) ("C:/AD" ++ "/.cargo/registry") = true
      ∧ (fun v => if v == "CARGO_HOME" then some "/ch" else none) "HOME" = none
      ∧ (fun v => if v == "CARGO_HOME" then some "/ch" else none) "APPDATA" = none
      ∧ (fun v => if v == "CARGO_HOME" then some "/ch" else none) "CARGO_HOME" = some "/ch"
      ∧ (fun _ => true) ("/ch" ++ "/registry") = true
      ∧ (fun v => if v == "HOME" then some "/h4" else none) "HOME" = some "/h4"
      ∧ (fun p => p == "/h4/.cargo/registry") ("/h4" ++ "/.cargo/registry") = true
      ∧ (fun p => p == "/h4/.cargo/registry") (("/h4" ++ "/.cargo/registry")
          ++ "/index/github.com-1ecc6299db9ec823") = false)
    ∧ (initialize_git_index_with_recovery (.ok ⟨fun _ => none⟩)
        (.ok ⟨fun _ => some ⟨[⟨"1.0.0", []⟩]⟩⟩)
        (fun v => if v == "HOME" then some "/home/u" else none) (fun _ => true)
        = some ⟨fun _ => none⟩
      ∧ get_cargo_registry_path
          (fun v => if v == "HOME" then some "/home/u" else none) (fun _ => true)
          = some ("/home/u" ++ "/.cargo/registry")
      ∧ initialize_git_index_with_recovery (.error "bad git index")
          (.ok ⟨fun _ => some ⟨[⟨"1.0.0", []⟩]⟩⟩)
          (fun v => if v == "HOME" then some "/home/u" else none) (fun _ => true)
          = (match (.ok ⟨fun _ => some ⟨[⟨"1.0.0", []⟩]⟩⟩ :
              Except String GitIndexM) with
             | .ok i => some i
             | .error _ => none)
      ∧ initialize_git_index_with_recovery (.error "connection timeout")
          (.ok ⟨fun _ => some ⟨[⟨"1.0.0", []⟩]⟩⟩)
          (fun v => if v == "HOME" then some "/home/u" else none) (fun _ => true)
          = none
      ∧ get_cargo_registry_path
          (fun v => if v == "APPDATA" then some "C:/AD" else none) (fun _ => true)
          = some ("C:/AD" ++ "/.cargo/registry")
      ∧ get_cargo_registry_path
          (fun v => if v == "CARGO_HOME" then some "/ch" else none) (fun _ => true)
          = some ("/ch" ++ "/registry")
      ∧ initialize_git_index_with_recovery (.error "bad git index")
          (.ok ⟨fun _ => some ⟨[⟨"1.0.0", []⟩]⟩⟩)
          (fun v => if v == "HOME" then some "/h4" else none)
          (fun p => p == "/h4/.cargo/registry")
          = none) :=
  ⟨by decide,
   C6_startup_recovery_state_machine
     (.ok ⟨fun _ => some ⟨[⟨"1.0.0", []⟩]⟩⟩) ⟨fun _ => none⟩
     "bad git index" "connection timeout"
     (fun v => if v == "HOME" then some "/home/u" else none)
     (fun v => if v == "APPDATA" then some "C:/AD" else none)
     (fun v => if v == "CARGO_HOME" then some "/ch" else none)
     (fun v => if v == "HOME" then some "/h4" else none)
     (fun _ => true) (fun _ => true) (fun _ => true)
     (fun p => p == "/h4/.cargo/registry")
     "/home/u" "C:/AD" "/ch" "/h4"
     (by decide)⟩

end CratesMcp
